import Mathlib

/-!
Shallow embedding of `build.py` from the `base-converter` repository:
a packaging pipeline that detects the platform, cleans build
directories, writes a PyInstaller configuration, invokes the packager,
renames the produced artifact, smoke-tests it, and writes installer
scripts and a package-info file.

The file system is modelled as a predicate on path strings (existence
of a file or directory).  Subprocess executions are modelled by
explicit records of their exit code, captured output and duration, so
every operation of the script becomes a pure function of those inputs.
-/

set_option maxRecDepth 100000

namespace BuildScript

/-- Character-list version of Python `str.startswith`: first argument is
the pattern, second the text. -/
def startsAux : List Char → List Char → Bool
  | [], _ => true
  | _ :: _, [] => false
  | c :: cs, d :: ds => c = d && startsAux cs ds

/-- Python `s.startswith(pre)` on strings. -/
def startswith (s pre : String) : Bool :=
  startsAux pre.data s.data

/-- Does the pattern occur at some position of the text?  (Python
substring containment.) -/
def subAt : List Char → List Char → Bool
  | pat, [] => startsAux pat []
  | pat, d :: ds => startsAux pat (d :: ds) || subAt pat ds

/-- Python `needle in hay` on strings. -/
def inStr (needle hay : String) : Bool :=
  subAt needle.data hay.data

/-- Python `str.lower`, character by character. -/
def lowerStr (s : String) : String :=
  ⟨s.data.map Char.toLower⟩

/-- Drop leading whitespace of a character list. -/
def dropWs : List Char → List Char
  | [] => []
  | c :: cs => if c.isWhitespace then dropWs cs else c :: cs

/-- Python `str.strip`: remove leading and trailing whitespace. -/
def strip (s : String) : String :=
  ⟨dropWs ((dropWs s.data.reverse).reverse)⟩

/-- Architecture normalisation performed by `get_platform_info` on the
lower-cased value of `platform.machine()` (build.py lines 19-24). -/
def normalizeArch (architecture : String) : String :=
  if architecture = "x86_64" then "amd64"
  else if architecture = "aarch64" ∨ architecture = "arm64" then "arm64"
  else if startswith architecture "arm" then "arm"
  else architecture

/-- `get_platform_info` (build.py lines 14-26), with the raw values of
`platform.system()` and `platform.machine()` as explicit inputs. -/
def get_platform_info (rawSystem rawMachine : String) : String × String :=
  (lowerStr rawSystem, normalizeArch (lowerStr rawMachine))

/-- The file system, as existence of a path (file or directory). -/
abbrev FS := String → Bool

/-- Create (or overwrite) the file at path `p`. -/
def FS.write (fs : FS) (p : String) : FS :=
  fun q => if q = p then true else fs q

/-- `Path.unlink`: delete the file at path `p`. -/
def FS.unlink (fs : FS) (p : String) : FS :=
  fun q => if q = p then false else fs q

/-- `Path.rename`, in its strict (Windows-like) form: it fails when a
file already exists at the destination, otherwise the source path
disappears and the destination path appears. -/
def FS.renameStrict (fs : FS) (src dst : String) : Option FS :=
  if fs dst then none
  else some (fun q => if q = src then false else if q = dst then true else fs q)

/-- `shutil.rmtree`: recursively delete the directory `d` — the path
itself together with every path below it. -/
def rmtree (fs : FS) (d : String) : FS :=
  fun p => if p = d ∨ startswith p (d ++ "/") = true then false else fs p

/-- The fixed list of directories cleaned by `clean_build_dirs`
(build.py line 31). -/
def dirs_to_clean : List String := ["build", "dist", "__pycache__"]

/-- Loop body of `clean_build_dirs` (build.py lines 32-35): each
directory that exists is deleted; `fail d = true` means `shutil.rmtree`
raises on `d` (e.g. permission denied), which propagates: the error
carries the file system at the moment of the failure. -/
def cleanGo (fail : String → Bool) : List String → FS → Except FS FS
  | [], fs => Except.ok fs
  | d :: ds, fs =>
    if fs d then
      if fail d then Except.error fs
      else cleanGo fail ds (rmtree fs d)
    else cleanGo fail ds fs

/-- `clean_build_dirs` (build.py lines 29-35). -/
def clean_build_dirs (fail : String → Bool) (fs : FS) : Except FS FS :=
  cleanGo fail dirs_to_clean fs

/-- A file written by the script: its path, its text, and whether the
executable permission bit was set on it (`os.chmod 0o755`). -/
structure WrittenFile where
  name : String
  text : String
  executable : Bool
  deriving DecidableEq, Repr

/-- The PyInstaller spec template of `create_spec_file` (build.py lines
40-109), verbatim: a constant string, with no interpolation.  The
`.exe` suffix decision appears inside it as Python source text that the
packaging tool evaluates later. -/
def spec_content : String :=
  "\n# -*- mode: python ; coding: utf-8 -*-\n\nimport sys\nfrom pathlib import Path\n\nblock_cipher = None\n\n# Determine the appropriate name for the executable\nexe_name = \x27base-converter\x27\nif sys.platform.startswith(\x27win\x27):\n    exe_name += \x27.exe\x27\n\na = Analysis(\n    [\x27src/main.py\x27],\n    pathex=[\x27src\x27],\n    binaries=[],\n    datas=[\n        (\x27src/*.py\x27, \x27src\x27),\n    ],\n    hiddenimports=[\n        \x27tkinter\x27,\n        \x27tkinter.ttk\x27,\n        \x27tkinter.messagebox\x27, \n        \x27tkinter.filedialog\x27,\n        \x27tkinter.scrolledtext\x27,\n        \x27argparse\x27,\n    ],\n    hookspath=[],\n    hooksconfig=\x7b\x7d,\n    runtime_hooks=[],\n    excludes=[\n        \x27matplotlib\x27,\n        \x27numpy\x27,\n        \x27pandas\x27,\n        \x27scipy\x27,\n        \x27IPython\x27,\n        \x27jupyter\x27,\n    ],\n    win_no_prefer_redirects=False,\n    win_private_assemblies=False,\n    cipher=block_cipher,\n    noarchive=False,\n)\n\npyz = PYZ(a.pure, a.zipped_data, cipher=block_cipher)\n\nexe = EXE(\n    pyz,\n    a.scripts,\n    a.binaries,\n    a.zipfiles,\n    a.datas,\n    [],\n    name=exe_name,\n    debug=False,\n    bootloader_ignore_signals=False,\n    strip=False,\n    upx=True,\n    upx_exclude=[],\n    runtime_tmpdir=None,\n    console=True,\n    disable_windowed_traceback=False,\n    argv_emulation=False,\n    target_arch=None,\n    codesign_identity=None,\n    entitlements_file=None,\n    icon=None,  # Add icon path here if you have one\n)\n"

/-- `create_spec_file` (build.py lines 38-113), as the file it writes.
The detected platform tag is passed as input only to record that the
function ignores it: the Python body reads no platform state. -/
def create_spec_file (_system _arch : String) : WrittenFile :=
  { name := "base-converter.spec", text := strip spec_content, executable := false }

/-- Result of the PyInstaller invocation in `build_executable`: exit
code and captured output of the subprocess (`check=True` turns a
nonzero exit code into `CalledProcessError`). -/
structure SubprocResult where
  returncode : Int
  stdout : String
  stderr : String

/-- Pre-rename executable name chosen in `build_executable` (build.py
lines 138-140). -/
def exe_name (system : String) : String :=
  "base-converter" ++ (if system = "windows" then ".exe" else "")

/-- `dist / exe_name`: path of the artifact as PyInstaller leaves it. -/
def original_exe (system : String) : String :=
  "dist/" ++ exe_name system

/-- Platform-qualified artifact path (build.py line 144). -/
def platform_exe (system arch : String) : String :=
  "dist/" ++ ("base-converter-" ++ system ++ "-" ++ arch ++
    (if system = "windows" then ".exe" else ""))

/-- `build_executable` (build.py lines 116-157).  The detected platform
tag and the packager subprocess result are explicit inputs; the
returned value is `some (ok, fs, printed)` on a run that terminates
normally (`ok` is the Boolean the function returns) and `none` if the
rename were to fail — the strict-rename model makes the guarding
`unlink` observable.  `create_spec_file` runs first and writes the spec
file (build.py line 123). -/
def build_executable (system arch : String) (res : SubprocResult) (fs0 : FS) :
    Option (Bool × FS × List String) :=
  let fs := FS.write fs0 (create_spec_file system arch).name
  if res.returncode = 0 then
    let original := original_exe system
    let target := platform_exe system arch
    if fs original then
      let fs1 := if fs target then FS.unlink fs target else fs
      match FS.renameStrict fs1 original target with
      | some fs2 =>
        some (true, fs2, ["Build successful!", res.stdout, "Created: " ++ target])
      | none => none
    else
      some (true, fs, ["Build successful!", res.stdout])
  else
    some (false, fs, ["Build failed: CalledProcessError", "Error output: " ++ res.stderr])

/-- One subprocess execution of the built artifact, as the smoke test
observes it: whether `subprocess.run` raises some exception other than
the timeout, how long the process would need to finish, and its exit
code and captured output if it does finish. -/
structure ProcExec where
  raises : Bool
  duration : Nat
  returncode : Int
  stdout : String
  stderr : String

/-- Outcome of `subprocess.run` with a timeout. -/
inductive ProcOutcome where
  | completed (returncode : Int) (stdout stderr : String)
  | timedOut
  | exn
  deriving DecidableEq

/-- `subprocess.run(..., timeout=t)`: raises `TimeoutExpired` when the
process needs longer than `t` time units. -/
def runWithTimeout (t : Nat) (p : ProcExec) : ProcOutcome :=
  if p.raises then ProcOutcome.exn
  else if t < p.duration then ProcOutcome.timedOut
  else ProcOutcome.completed p.returncode p.stdout p.stderr

/-- The fixed timeout of the smoke test (build.py line 306). -/
def TEST_TIMEOUT : Nat := 10

/-- `test_executable` (build.py lines 290-318): missing artifact,
timeout, nonzero exit, missing marker, or any other exception all
yield `false`; the function raises nothing. -/
def test_executable (system arch : String) (fs : FS) (p : ProcExec) : Bool :=
  let exe_path := platform_exe system arch
  if fs exe_path then
    match runWithTimeout TEST_TIMEOUT p with
    | ProcOutcome.completed rc out _ => rc == 0 && inStr "Binary" out
    | ProcOutcome.timedOut => false
    | ProcOutcome.exn => false
  else false

/-- Template of the Windows installer batch script (build.py lines
174-191), verbatim. -/
def windows_installer_content : String :=
  "\n@echo off\necho Installing Base Converter...\n\nREM Create installation directory\nset INSTALL_DIR=%PROGRAMFILES%\\BaseConverter\nif not exist \"%INSTALL_DIR%\" mkdir \"%INSTALL_DIR%\"\n\nREM Copy executable\ncopy base-converter-windows-*.exe \"%INSTALL_DIR%\\base-converter.exe\"\n\nREM Add to PATH (requires admin privileges)\nsetx PATH \"%PATH%;%INSTALL_DIR%\" /M\n\necho Base Converter installed successfully!\necho You can now use \x27base-converter\x27 command from any command prompt.\npause\n"

/-- `create_windows_installer` (build.py lines 172-195): writes the
`.bat` file, with no `chmod`. -/
def create_windows_installer : WrittenFile :=
  { name := "install-windows.bat", text := strip windows_installer_content,
    executable := false }

/-- Template of the macOS installer script (build.py lines 200-213),
verbatim. -/
def macos_installer_content : String :=
  "#!/bin/bash\necho \"Installing Base Converter...\"\n\n# Create installation directory\nINSTALL_DIR=\"/usr/local/bin\"\nsudo mkdir -p \"$INSTALL_DIR\"\n\n# Copy executable\nsudo cp base-converter-darwin-* \"$INSTALL_DIR/base-converter\"\nsudo chmod +x \"$INSTALL_DIR/base-converter\"\n\necho \"Base Converter installed successfully!\"\necho \"You can now use \x27base-converter\x27 command from any terminal.\"\n"

/-- `create_macos_installer` (build.py lines 198-218): writes the shell
script and sets the executable bit (`os.chmod 0o755`). -/
def create_macos_installer : WrittenFile :=
  { name := "install-macos.sh", text := strip macos_installer_content,
    executable := true }

/-- Template of the Linux installer script (build.py lines 223-251),
verbatim, including the desktop-entry heredoc. -/
def linux_installer_content : String :=
  "#!/bin/bash\necho \"Installing Base Converter...\"\n\n# Create installation directory\nINSTALL_DIR=\"/usr/local/bin\"\nsudo mkdir -p \"$INSTALL_DIR\"\n\n# Copy executable\nsudo cp base-converter-linux-* \"$INSTALL_DIR/base-converter\"\nsudo chmod +x \"$INSTALL_DIR/base-converter\"\n\n# Create desktop entry (optional)\nDESKTOP_FILE=\"$HOME/.local/share/applications/base-converter.desktop\"\nmkdir -p \"$(dirname \"$DESKTOP_FILE\")\"\ncat > \"$DESKTOP_FILE\" << EOF\n[Desktop Entry]\nName=Base Converter\nComment=A comprehensive base conversion utility\nExec=base-converter --gui\nIcon=accessories-calculator\nTerminal=false\nType=Application\nCategories=Utility;Calculator;\nEOF\n\necho \"Base Converter installed successfully!\"\necho \"You can now use \x27base-converter\x27 command from any terminal.\"\necho \"A desktop entry has been created for GUI access.\"\n"

/-- `create_linux_installer` (build.py lines 221-256): writes the shell
script and sets the executable bit (`os.chmod 0o755`). -/
def create_linux_installer : WrittenFile :=
  { name := "install-linux.sh", text := strip linux_installer_content,
    executable := true }

/-- `create_installer_script` (build.py lines 160-169): dispatches on
the detected operating system, with the Linux script as the fallback
branch. -/
def create_installer_script (system _arch : String) : WrittenFile :=
  if system = "windows" then create_windows_installer
  else if system = "darwin" then create_macos_installer
  else create_linux_installer

/-- Template of `create_package_info` (build.py lines 263-283) with the
platform tag and the formatted timestamp interpolated as in the
f-string. -/
def info_content (system arch now : String) : String :=
  "Base Converter v1.0\nPlatform: " ++ system ++ "-" ++ arch ++
  "\nBuild Date: " ++ now ++
  "\n\nINSTALLATION:\nRun the appropriate installer script for your platform:\n- Windows: install-windows.bat (run as administrator)\n- macOS: ./install-macos.sh\n- Linux: ./install-linux.sh\n\nMANUAL INSTALLATION:\nCopy the executable to a directory in your PATH.\n\nUSAGE:\nbase-converter --gui          # Launch graphical interface\nbase-converter 1010 -f 2 -t 10  # Convert binary to decimal\nbase-converter --help         # Show help\n\nFor more information, visit:\nhttps://github.com/6639835/base-converter\n"

/-- `create_package_info` (build.py lines 259-287). -/
def create_package_info (system arch now : String) : WrittenFile :=
  { name := "PACKAGE_INFO.txt", text := strip (info_content system arch now),
    executable := false }

/-- Terminal state of a run of `main`. -/
inductive MainOutcome where
  | fatal (fs : FS)
  | crash
  | exited (code : Nat) (fs : FS) (written : List WrittenFile) (printed : List String)

/-- `main` (build.py lines 321-359).  The PyInstaller probe/install of
lines 327-332 has no observable effect modelled here.  `fail` is the
`shutil.rmtree` failure oracle of the cleaning step, `res` the packager
subprocess result, `smoke` the smoke-test subprocess execution, `now`
the formatted timestamp.  A cleaning failure propagates as
`MainOutcome.fatal`; a build failure exits with code 1 (build.py line
340); a smoke-test failure only prints a warning; otherwise the
installer script and the package-info file are written and the process
exits with code 0. -/
def main (system arch : String) (fail : String → Bool) (res : SubprocResult)
    (smoke : ProcExec) (now : String) (fs0 : FS) : MainOutcome :=
  match clean_build_dirs fail fs0 with
  | Except.error fsP => MainOutcome.fatal fsP
  | Except.ok fs1 =>
    match build_executable system arch res fs1 with
    | none => MainOutcome.crash
    | some (ok, fs2, msgs) =>
      if ok then
        let testOk := test_executable system arch fs2 smoke
        let warn := if testOk then ([] : List String)
          else ["Warning: Executable test failed, but build completed"]
        MainOutcome.exited 0 fs2
          [create_installer_script system arch, create_package_info system arch now]
          (msgs ++ warn)
      else
        MainOutcome.exited 1 fs2 [] (msgs ++ ["Build failed!"])

end BuildScript

namespace BuildScript

example : normalizeArch "x86_64" = "amd64" := by decide

example : normalizeArch "armv7l" = "arm" := by decide

example : inStr "Binary" "Binary|Octal|Decimal|Hex" = true := by decide

example : startswith "armv7l" "arm" = true := by decide

example : strip "\n  hello \n" = "hello" := by decide

example : get_platform_info "Linux" "X86_64" = ("linux", "amd64") := by decide

example : inStr "exe_name += \x27.exe\x27" (strip spec_content) = true := by decide

example : inStr "sys.platform.startswith(\x27win\x27)" spec_content = true := by decide

/-- No path under `dist/` is the spec file written in the working
directory. -/
theorem dist_ne_spec (x : String) : "dist/" ++ x ≠ "base-converter.spec" := by
  intro h
  have hd : some 'd' = some 'b' := congrArg (fun s : String => s.data.head?) h
  simp at hd

theorem original_ne_spec (system : String) :
    original_exe system ≠ "base-converter.spec" :=
  dist_ne_spec (exe_name system)

theorem platform_ne_spec (system arch : String) :
    platform_exe system arch ≠ "base-converter.spec" :=
  dist_ne_spec _

/-- The pre-rename artifact path and the platform-qualified target path
are always distinct (their lengths differ). -/
theorem original_ne_platform (system arch : String) :
    original_exe system ≠ platform_exe system arch := by
  intro h
  have hl := congrArg String.length h
  unfold original_exe platform_exe exe_name at hl
  have d1 : ("dist/" : String).length = 5 := rfl
  have d2 : ("base-converter" : String).length = 14 := rfl
  have d3 : (".exe" : String).length = 4 := rfl
  have d4 : ("base-converter-" : String).length = 15 := rfl
  have d5 : ("-" : String).length = 1 := rfl
  have d6 : ("" : String).length = 0 := rfl
  by_cases hs : system = "windows"
  · subst hs
    simp only [if_pos, String.length_append, d1, d2, d3, d4, d5] at hl
    have d7 : ("windows" : String).length = 7 := rfl
    omega
  · simp only [if_neg hs, String.length_append, d1, d2, d3, d4, d5, d6] at hl
    omega

/-- Writing the spec file does not change the status of the pre-rename
artifact path. -/
theorem write_spec_original (fs0 : FS) (system : String) :
    FS.write fs0 "base-converter.spec" (original_exe system) = fs0 (original_exe system) := by
  unfold FS.write
  rw [if_neg (original_ne_spec system)]

/-- Writing the spec file does not change the status of the
platform-qualified artifact path. -/
theorem write_spec_platform (fs0 : FS) (system arch : String) :
    FS.write fs0 "base-converter.spec" (platform_exe system arch) =
      fs0 (platform_exe system arch) := by
  unfold FS.write
  rw [if_neg (platform_ne_spec system arch)]

theorem spec_name (system arch : String) :
    (create_spec_file system arch).name = "base-converter.spec" := rfl

/-- Characterization of `build_executable` on a zero exit code: with
the artifact present it renames (never erroring, deleting a colliding
target first); with the artifact absent it silently skips the rename
and still reports success. -/
theorem build_rc0_char (system arch : String) (res : SubprocResult) (fs0 : FS)
    (hrc : res.returncode = 0) :
    (fs0 (original_exe system) = true →
      ∃ fs msgs, build_executable system arch res fs0 = some (true, fs, msgs) ∧
        fs (platform_exe system arch) = true ∧
        fs (original_exe system) = false ∧
        ∀ p, p ≠ "base-converter.spec" → p ≠ original_exe system →
          p ≠ platform_exe system arch → fs p = fs0 p) ∧
    (fs0 (original_exe system) = false →
      ∃ msgs, build_executable system arch res fs0 =
        some (true, FS.write fs0 "base-converter.spec", msgs)) := by
  constructor
  · intro hpre
    have hWo : FS.write fs0 "base-converter.spec" (original_exe system) = true := by
      rw [write_spec_original]; exact hpre
    unfold build_executable
    simp only [spec_name]
    rw [if_pos hrc, if_pos hWo]
    set W := FS.write fs0 "base-converter.spec" with hW
    set fs1 := if W (platform_exe system arch) = true then
      FS.unlink W (platform_exe system arch) else W with hfs1
    have h1t : fs1 (platform_exe system arch) = false := by
      rw [hfs1]
      by_cases ht : W (platform_exe system arch) = true
      · rw [if_pos ht]; unfold FS.unlink; rw [if_pos rfl]
      · rw [if_neg ht]
        exact Bool.not_eq_true _ |>.mp ht
    have hre : FS.renameStrict fs1 (original_exe system) (platform_exe system arch) =
        some (fun q => if q = original_exe system then false
          else if q = platform_exe system arch then true else fs1 q) := by
      unfold FS.renameStrict
      rw [h1t]
      simp
    rw [hre]
    refine ⟨_, _, rfl, ?_, ?_, ?_⟩
    · rw [if_neg (Ne.symm (original_ne_platform system arch)), if_pos rfl]
    · rw [if_pos rfl]
    · intro p hps hpo hpt
      rw [if_neg hpo, if_neg hpt, hfs1]
      by_cases ht : W (platform_exe system arch) = true
      · rw [if_pos ht]
        unfold FS.unlink
        rw [if_neg hpt, hW]
        unfold FS.write
        rw [if_neg hps]
      · rw [if_neg ht, hW]
        unfold FS.write
        rw [if_neg hps]
  · intro hpre
    have hWo : ¬ FS.write fs0 "base-converter.spec" (original_exe system) = true := by
      rw [write_spec_original, hpre]
      exact Bool.false_ne_true
    unfold build_executable
    simp only [spec_name]
    rw [if_pos hrc, if_neg hWo]
    exact ⟨_, rfl⟩

/-- Characterization of `build_executable` on a nonzero exit code: the
exception is caught, the stderr is printed, the function returns
`False`, and only the spec file was written. -/
theorem build_fail_char (system arch : String) (res : SubprocResult) (fs0 : FS)
    (hrc : ¬ res.returncode = 0) :
    build_executable system arch res fs0 =
      some (false, FS.write fs0 "base-converter.spec",
        ["Build failed: CalledProcessError", "Error output: " ++ res.stderr]) := by
  unfold build_executable
  simp only [spec_name]
  rw [if_neg hrc]

/-- C3: after lowercasing, `get_platform_info` maps `x86_64` to
`amd64`, maps `aarch64` and `arm64` to `arm64`, maps any other string
starting with `arm` to `arm`, and returns every other string
unchanged. -/
theorem c3_arch_normalization (a rawSystem rawMachine : String) :
    normalizeArch "x86_64" = "amd64" ∧
    normalizeArch "aarch64" = "arm64" ∧
    normalizeArch "arm64" = "arm64" ∧
    (startswith a "arm" = true → a ≠ "arm64" → normalizeArch a = "arm") ∧
    (a ≠ "x86_64" → a ≠ "aarch64" → a ≠ "arm64" → startswith a "arm" = false →
      normalizeArch a = a) ∧
    (get_platform_info rawSystem rawMachine).2 = normalizeArch (lowerStr rawMachine) := by
  refine ⟨by decide, by decide, by decide, ?_, ?_, rfl⟩
  · intro h hne
    have hx : a ≠ "x86_64" := by rintro rfl; exact absurd h (by decide)
    have ha : a ≠ "aarch64" := by rintro rfl; exact absurd h (by decide)
    simp [normalizeArch, hx, ha, hne, h]
  · intro h1 h2 h3 h4
    simp [normalizeArch, h1, h2, h3, h4]

/-- Witness for C3 at the concrete inputs `armv7l` and `riscv64`. -/
theorem c3_arch_normalization_witness :
    normalizeArch "armv7l" = "arm" ∧ normalizeArch "riscv64" = "riscv64" :=
  ⟨(c3_arch_normalization "armv7l" "Linux" "armv7l").2.2.2.1 (by decide) (by decide),
   (c3_arch_normalization "riscv64" "Linux" "riscv64").2.2.2.2.1
     (by decide) (by decide) (by decide) (by decide)⟩

/-- C1: on a zero packager exit code with the artifact present at the
pre-rename path, `build_executable` returns success and terminates
without error; afterwards a file exists at exactly the
platform-qualified path (`.exe` appended iff windows), the pre-rename
file no longer exists, any colliding file at the target name was
deleted before the rename, and no other path changed besides the spec
file. -/
theorem c1_rename_on_success (system arch : String) (res : SubprocResult) (fs0 : FS)
    (hrc : res.returncode = 0) (hpre : fs0 (original_exe system) = true) :
    ∃ fs msgs, build_executable system arch res fs0 = some (true, fs, msgs) ∧
      fs (platform_exe system arch) = true ∧
      fs (original_exe system) = false ∧
      ∀ p, p ≠ "base-converter.spec" → p ≠ original_exe system →
        p ≠ platform_exe system arch → fs p = fs0 p :=
  (build_rc0_char system arch res fs0 hrc).1 hpre

/-- Witness for C1: a linux build whose artifact is present and whose
target name collides with an existing file. -/
theorem c1_rename_on_success_witness :
    ∃ fs msgs, build_executable "linux" "amd64" ⟨0, "out", "err"⟩
        (fun p => p == "dist/base-converter" || p == "dist/base-converter-linux-amd64") =
        some (true, fs, msgs) ∧
      fs (platform_exe "linux" "amd64") = true ∧
      fs (original_exe "linux") = false ∧
      ∀ p, p ≠ "base-converter.spec" → p ≠ original_exe "linux" →
        p ≠ platform_exe "linux" "amd64" →
        fs p = (fun p : String =>
          p == "dist/base-converter" || p == "dist/base-converter-linux-amd64") p :=
  c1_rename_on_success "linux" "amd64" ⟨0, "out", "err"⟩ _ (by decide) (by decide)

/-- C4: on a zero packager exit code with no artifact at the
pre-rename path, `build_executable` still returns success and writes
nothing but the spec file: the rename is silently skipped and no
platform-qualified file appears. -/
theorem c4_missing_artifact (system arch : String) (res : SubprocResult) (fs0 : FS)
    (hrc : res.returncode = 0) (hpre : fs0 (original_exe system) = false) :
    ∃ msgs, build_executable system arch res fs0 =
        some (true, FS.write fs0 "base-converter.spec", msgs) ∧
      FS.write fs0 "base-converter.spec" (platform_exe system arch) =
        fs0 (platform_exe system arch) ∧
      ∀ p, p ≠ "base-converter.spec" → FS.write fs0 "base-converter.spec" p = fs0 p := by
  obtain ⟨msgs, h⟩ := (build_rc0_char system arch res fs0 hrc).2 hpre
  refine ⟨msgs, h, write_spec_platform fs0 system arch, ?_⟩
  intro p hps
  unfold FS.write
  rw [if_neg hps]

/-- Witness for C4: a windows build over an empty file system. -/
theorem c4_missing_artifact_witness :
    ∃ msgs, build_executable "windows" "amd64" ⟨0, "", ""⟩ (fun _ => false) =
        some (true, FS.write (fun _ => false) "base-converter.spec", msgs) ∧
      FS.write (fun _ => false) "base-converter.spec" (platform_exe "windows" "amd64") =
        (fun _ : String => false) (platform_exe "windows" "amd64") ∧
      ∀ p, p ≠ "base-converter.spec" →
        FS.write (fun _ => false) "base-converter.spec" p = (fun _ : String => false) p :=
  c4_missing_artifact "windows" "amd64" ⟨0, "", ""⟩ (fun _ => false) (by decide) rfl

/-- C2: on a nonzero packager exit code `build_executable` catches the
error, prints the captured stderr, returns failure having written
nothing but the spec file (no renamed artifact), and `main` then
terminates with exit code 1. -/
theorem c2_build_failure (system arch now : String) (res : SubprocResult)
    (fail : String → Bool) (smoke : ProcExec) (fs0 fs1 : FS)
    (hrc : ¬ res.returncode = 0)
    (hclean : clean_build_dirs fail fs0 = Except.ok fs1) :
    (∃ fs msgs, build_executable system arch res fs1 = some (false, fs, msgs) ∧
      ("Error output: " ++ res.stderr) ∈ msgs ∧
      ∀ p, p ≠ "base-converter.spec" → fs p = fs1 p) ∧
    (∃ fs printed, main system arch fail res smoke now fs0 =
      MainOutcome.exited 1 fs [] printed) := by
  have hb := build_fail_char system arch res fs1 hrc
  constructor
  · refine ⟨_, _, hb, by simp, ?_⟩
    intro p hps
    unfold FS.write
    rw [if_neg hps]
  · unfold main
    rw [hclean]
    simp only [hb]
    exact ⟨_, _, rfl⟩

/-- Witness for C2: a packager exiting 2 over an empty file system. -/
theorem c2_build_failure_witness :
    (∃ fs msgs, build_executable "linux" "amd64" ⟨2, "", "boom"⟩ (fun _ => false) =
        some (false, fs, msgs) ∧
      ("Error output: " ++ ("boom" : String)) ∈ msgs ∧
      ∀ p, p ≠ "base-converter.spec" → fs p = (fun _ : String => false) p) ∧
    (∃ fs printed, main "linux" "amd64" (fun _ => false) ⟨2, "", "boom"⟩
        ⟨false, 0, 0, "", ""⟩ "2026-10-12 00:00:00" (fun _ => false) =
      MainOutcome.exited 1 fs [] printed) :=
  c2_build_failure "linux" "amd64" "2026-10-12 00:00:00" ⟨2, "", "boom"⟩
    (fun _ => false) ⟨false, 0, 0, "", ""⟩ (fun _ => false) (fun _ => false)
    (by decide) rfl

/-- C5: the smoke test passes exactly when the renamed artifact exists,
running it raises no exception, it completes within the fixed 10-unit
timeout, exits with code 0, and its stdout contains `Binary`; every
other situation yields `false` (the function is total, so it never
raises). -/
theorem c5_smoke_test_iff (system arch : String) (fs : FS) (p : ProcExec) :
    test_executable system arch fs p = true ↔
      (fs (platform_exe system arch) = true ∧ p.raises = false ∧
       p.duration ≤ TEST_TIMEOUT ∧ p.returncode = 0 ∧
       inStr "Binary" p.stdout = true) := by
  unfold test_executable runWithTimeout TEST_TIMEOUT
  by_cases hf : fs (platform_exe system arch) = true <;>
    by_cases hr : p.raises = true <;>
      by_cases hd : 10 < p.duration <;>
        simp [hf, hr, hd, Nat.not_lt] <;>
          omega

/-- Witness for C5: a present artifact whose run prints the marker and
exits 0 within the timeout. -/
theorem c5_smoke_test_iff_witness :
    test_executable "linux" "amd64"
      (fun p => p == "dist/base-converter-linux-amd64")
      ⟨false, 3, 0, "Binary|Octal|Decimal|Hex", ""⟩ = true :=
  (c5_smoke_test_iff "linux" "amd64"
      (fun p => p == "dist/base-converter-linux-amd64")
      ⟨false, 3, 0, "Binary|Octal|Decimal|Hex", ""⟩).mpr
    ⟨by decide, rfl, by decide, rfl, by decide⟩

/-- C6: once the build step succeeds, a failed smoke test only prints a
warning: `main` still writes the installer script and the package-info
file and exits 0; and an exit code other than 0 can only come from a
packaging failure. -/
theorem c6_smoke_failure_nonfatal (system arch now : String) (res : SubprocResult)
    (fail : String → Bool) (smoke : ProcExec) (fs0 fs1 : FS)
    (hclean : clean_build_dirs fail fs0 = Except.ok fs1) :
    (res.returncode = 0 →
      ∃ fs printed, main system arch fail res smoke now fs0 =
        MainOutcome.exited 0 fs
          [create_installer_script system arch, create_package_info system arch now]
          printed ∧
        (test_executable system arch fs smoke = false →
          "Warning: Executable test failed, but build completed" ∈ printed)) ∧
    (∀ c fs w printed, main system arch fail res smoke now fs0 =
        MainOutcome.exited c fs w printed → c ≠ 0 → ¬ res.returncode = 0) := by
  have hpart1 : res.returncode = 0 →
      ∃ fs printed, main system arch fail res smoke now fs0 =
        MainOutcome.exited 0 fs
          [create_installer_script system arch, create_package_info system arch now]
          printed ∧
        (test_executable system arch fs smoke = false →
          "Warning: Executable test failed, but build completed" ∈ printed) := by
    intro hrc
    cases hpre : fs1 (original_exe system) with
    | true =>
      obtain ⟨fs, msgs, heq, -, -, -⟩ := (build_rc0_char system arch res fs1 hrc).1 hpre
      unfold main
      rw [hclean]
      simp only [heq]
      refine ⟨fs, msgs ++ (if test_executable system arch fs smoke = true then ([] : List String)
        else ["Warning: Executable test failed, but build completed"]), by simp, ?_⟩
      intro ht
      simp [ht]
    | false =>
      obtain ⟨msgs, heq⟩ := (build_rc0_char system arch res fs1 hrc).2 hpre
      unfold main
      rw [hclean]
      simp only [heq]
      refine ⟨FS.write fs1 "base-converter.spec",
        msgs ++ (if test_executable system arch (FS.write fs1 "base-converter.spec") smoke = true
          then ([] : List String)
          else ["Warning: Executable test failed, but build completed"]), by simp, ?_⟩
      intro ht
      simp [ht]
  refine ⟨hpart1, ?_⟩
  intro c fs w printed hmain hc hrc
  obtain ⟨fs', printed', h1, -⟩ := hpart1 hrc
  rw [h1] at hmain
  have := MainOutcome.exited.inj hmain
  exact hc this.1.symm

/-- Witness for C6: a successful packager run whose smoke test times
out still exits 0 with both files written. -/
theorem c6_smoke_failure_nonfatal_witness :
    ∃ fs printed, main "linux" "amd64" (fun _ => false) ⟨0, "", ""⟩
        ⟨false, 99, 0, "Binary", ""⟩ "2026-10-12 00:00:00" (fun _ => false) =
      MainOutcome.exited 0 fs
        [create_installer_script "linux" "amd64",
         create_package_info "linux" "amd64" "2026-10-12 00:00:00"]
        printed ∧
      (test_executable "linux" "amd64" fs ⟨false, 99, 0, "Binary", ""⟩ = false →
        "Warning: Executable test failed, but build completed" ∈ printed) :=
  (c6_smoke_failure_nonfatal "linux" "amd64" "2026-10-12 00:00:00" ⟨0, "", ""⟩
      (fun _ => false) ⟨false, 99, 0, "Binary", ""⟩ (fun _ => false) (fun _ => false)
      rfl).1 (by decide)

/-- When none of the deletions fails, `cleanGo` succeeds, never
creates a path, removes every listed directory, and leaves untouched
every path outside the listed directories. -/
theorem cleanGo_nofail (fail : String → Bool) (ds : List String) (fs : FS)
    (h : ∀ d ∈ ds, fail d = false) :
    ∃ fs', cleanGo fail ds fs = Except.ok fs' ∧
      (∀ p, fs' p = true → fs p = true) ∧
      (∀ d ∈ ds, fs' d = false) ∧
      (∀ p, (∀ d ∈ ds, ¬(p = d ∨ startswith p (d ++ "/") = true)) → fs' p = fs p) := by
  induction ds generalizing fs with
  | nil => exact ⟨fs, rfl, fun _ hp => hp, by simp, fun _ _ => rfl⟩
  | cons d ds ih =>
    have hd : fail d = false := h d (List.mem_cons_self d ds)
    have hds : ∀ d' ∈ ds, fail d' = false := fun d' hd' => h d' (List.mem_cons_of_mem d hd')
    by_cases hfs : fs d = true
    · obtain ⟨fs', heq, hmono, hgone, hkeep⟩ := ih (rmtree fs d) hds
      refine ⟨fs', ?_, ?_, ?_, ?_⟩
      · unfold cleanGo
        rw [if_pos hfs, if_neg (by rw [hd]; exact Bool.false_ne_true)]
        exact heq
      · intro p hp
        have hr := hmono p hp
        unfold rmtree at hr
        by_cases hcond : p = d ∨ startswith p (d ++ "/") = true
        · rw [if_pos hcond] at hr
          exact absurd hr Bool.false_ne_true
        · rwa [if_neg hcond] at hr
      · intro d' hd'
        rcases List.mem_cons.mp hd' with heq' | hmem
        · subst heq'
          cases hfd : fs' d' with
          | false => rfl
          | true =>
            have hr := hmono d' hfd
            unfold rmtree at hr
            rw [if_pos (Or.inl rfl)] at hr
            exact absurd hr Bool.false_ne_true
        · exact hgone d' hmem
      · intro p hp
        have hp_head := hp d (List.mem_cons_self d ds)
        have hp_tail : ∀ d' ∈ ds, ¬(p = d' ∨ startswith p (d' ++ "/") = true) :=
          fun d' h' => hp d' (List.mem_cons_of_mem d h')
        rw [hkeep p hp_tail]
        unfold rmtree
        rw [if_neg hp_head]
    · obtain ⟨fs', heq, hmono, hgone, hkeep⟩ := ih fs hds
      refine ⟨fs', ?_, hmono, ?_,
        fun p hp => hkeep p (fun d' h' => hp d' (List.mem_cons_of_mem d h'))⟩
      · unfold cleanGo
        rw [if_neg hfs]
        exact heq
      · intro d' hd'
        rcases List.mem_cons.mp hd' with heq' | hmem
        · subst heq'
          cases hfd : fs' d' with
          | false => rfl
          | true => exact absurd (hmono d' hfd) hfs
        · exact hgone d' hmem

/-- C8: `clean_build_dirs` deletes each of `build`, `dist` and
`__pycache__` that exists (recursively) and raises no error for absent
ones; a deletion failure propagates fatally with no rollback — earlier
successful deletions persist in the propagated state. -/
theorem c8_clean_dirs (fs : FS) (fail : String → Bool) :
    ((∀ d ∈ dirs_to_clean, fail d = false) →
      ∃ fs', clean_build_dirs fail fs = Except.ok fs' ∧
        (∀ d ∈ dirs_to_clean, fs' d = false) ∧
        (∀ p, (∀ d ∈ dirs_to_clean, ¬(p = d ∨ startswith p (d ++ "/") = true)) →
          fs' p = fs p)) ∧
    (fs "build" = true → fail "build" = true →
      clean_build_dirs fail fs = Except.error fs) ∧
    (fs "build" = true → fail "build" = false → fs "dist" = true → fail "dist" = true →
      clean_build_dirs fail fs = Except.error (rmtree fs "build")) := by
  refine ⟨?_, ?_, ?_⟩
  · intro h
    obtain ⟨fs', heq, -, hgone, hkeep⟩ := cleanGo_nofail fail dirs_to_clean fs h
    exact ⟨fs', heq, hgone, hkeep⟩
  · intro h1 h2
    unfold clean_build_dirs dirs_to_clean cleanGo
    rw [if_pos h1, if_pos h2]
  · intro h1 h2 h3 h4
    unfold clean_build_dirs dirs_to_clean cleanGo
    rw [if_pos h1, if_neg (by rw [h2]; exact Bool.false_ne_true)]
    have hdist : rmtree fs "build" "dist" = true := by
      unfold rmtree
      rw [if_neg (by decide)]
      exact h3
    unfold cleanGo
    rw [if_pos hdist, if_pos h4]

/-- Witness for C8: a successful clean over `{build}` and a failing
clean of `dist` after `build` was already removed. -/
theorem c8_clean_dirs_witness :
    (∃ fs', clean_build_dirs (fun _ => false) (fun p => p == "build") = Except.ok fs' ∧
      (∀ d ∈ dirs_to_clean, fs' d = false) ∧
      (∀ p, (∀ d ∈ dirs_to_clean, ¬(p = d ∨ startswith p (d ++ "/") = true)) →
        fs' p = (fun q : String => q == "build") p)) ∧
    clean_build_dirs (fun d => d == "dist")
        (fun p => p == "build" || p == "dist" || p == "build/x") =
      Except.error (rmtree (fun p => p == "build" || p == "dist" || p == "build/x") "build") :=
  ⟨(c8_clean_dirs (fun p => p == "build") (fun _ => false)).1 (by decide),
   (c8_clean_dirs (fun p => p == "build" || p == "dist" || p == "build/x")
      (fun d => d == "dist")).2.2 (by decide) (by decide) (by decide) (by decide)⟩

theorem installer_on_linux (arch : String) :
    create_installer_script "linux" arch = create_linux_installer := rfl

theorem installer_on_windows (arch : String) :
    create_installer_script "windows" arch = create_windows_installer := rfl

theorem installer_on_darwin (arch : String) :
    create_installer_script "darwin" arch = create_macos_installer := rfl

/-- C7: `create_installer_script` writes exactly one installer: on
linux a script containing a `[Desktop Entry]` section with
`Exec=base-converter --gui`; on windows a `.bat` file containing
`setx PATH`; on darwin a script referencing `/usr/local/bin`; and the
two POSIX variants carry the executable permission bit. -/
theorem c7_installer_variants (arch : String) :
    (inStr "[Desktop Entry]" (create_installer_script "linux" arch).text = true ∧
     inStr "Exec=base-converter --gui" (create_installer_script "linux" arch).text = true) ∧
    ((create_installer_script "windows" arch).name = "install-windows.bat" ∧
     inStr "setx PATH" (create_installer_script "windows" arch).text = true) ∧
    (inStr "/usr/local/bin" (create_installer_script "darwin" arch).text = true) ∧
    ((create_installer_script "linux" arch).executable = true ∧
     (create_installer_script "darwin" arch).executable = true ∧
     (create_installer_script "windows" arch).executable = false) := by
  rw [installer_on_linux, installer_on_windows, installer_on_darwin]
  exact ⟨⟨by decide, by decide⟩, ⟨rfl, by decide⟩, by decide, rfl, rfl, rfl⟩

/-- C9: for every detected operating system other than `windows` and
`darwin` — not only `linux` — the Linux installer variant
`install-linux.sh` is written: the Linux script is the fallback
branch. -/
theorem c9_linux_fallback (system arch : String)
    (h1 : system ≠ "windows") (h2 : system ≠ "darwin") :
    create_installer_script system arch = create_linux_installer ∧
    (create_installer_script system arch).name = "install-linux.sh" := by
  unfold create_installer_script
  rw [if_neg h1, if_neg h2]
  exact ⟨rfl, rfl⟩

/-- Witness for C9 at the non-linux host string `freebsd`. -/
theorem c9_linux_fallback_witness :
    create_installer_script "freebsd" "amd64" = create_linux_installer ∧
    (create_installer_script "freebsd" "amd64").name = "install-linux.sh" :=
  c9_linux_fallback "freebsd" "amd64" (by decide) (by decide)

/-- C10: `create_spec_file` writes byte-for-byte identical content on
every invocation, independent of the detected platform; the
windows-only `.exe` output-name suffix is not decided by the writer
but embedded in the configuration as Python logic (`sys.platform`
test) that the packaging tool evaluates later. -/
theorem c10_spec_deterministic (system arch system2 arch2 : String) :
    create_spec_file system arch = create_spec_file system2 arch2 ∧
    inStr "if sys.platform.startswith(\x27win\x27):\n    exe_name += \x27.exe\x27"
      (create_spec_file system arch).text = true ∧
    inStr "name=exe_name" (create_spec_file system arch).text = true := by
  have ht : (create_spec_file system arch).text = strip spec_content := rfl
  refine ⟨rfl, ?_, ?_⟩ <;> rw [ht] <;> decide

end BuildScript
